import Mathlib

/-!
Verification development for the SEO-MANAGER repository.

Part 1 embeds the AsyncJobTracker state machine described by the
specification (the repository itself only contains the crude polling
pattern in AuditDashboard.runAudit; the tracker is the spec's distilled
core, so it is modelled from the spec's words).

Part 2 embeds, directly from the source, the pure view helpers
`filteredIssues` (AuditDashboard.tsx) and `getHealthColor`
(WebsiteManager.tsx).
-/

namespace AsyncJobTracker

/-- Modelled from the spec: the result payload is "a mapping of string keys
to arbitrary JSON-compatible values"; we model it as an association list. -/
abbrev Payload := List (String × String)

/-- Modelled from the spec: job status is one of idle, running, succeeded,
failed. -/
inductive Status where
  | idle : Status
  | running : Status
  | succeeded : Status
  | failed : Status
deriving DecidableEq, Repr

/-- Modelled from the spec: the Job record (status, startedAt, result,
error, pollAttempts). The opaque id is omitted: the spec says it may be
absent and no operation reads it. -/
structure Job where
  status : Status
  startedAt : Nat
  result : Option Payload
  error : Option String
  pollAttempts : Nat
deriving DecidableEq, Repr

/-- Modelled from the spec: PollPolicy with intervalMs, timeoutMs and an
optional maxAttempts cap; immutable for one job run. -/
structure PollPolicy where
  intervalMs : Nat
  timeoutMs : Nat
  maxAttempts : Option Nat
deriving DecidableEq, Repr

/-- Modelled from the spec: outcome of one fetchStatus call — a transient
network error (recoverable), a terminal fetch failure, or a parsed
response carrying done, optional result and optional error. -/
inductive FetchOutcome where
  | transientError : FetchOutcome
  | terminalFailure (e : String) : FetchOutcome
  | ok (done : Bool) (result : Option Payload) (error : Option String) : FetchOutcome
deriving DecidableEq, Repr

/-- Modelled from the spec: the events driving one tracker instance.
A start event carries the wall-clock time, whether the trigger call
succeeded, and the trigger's error message when it failed (start and the
resolution of its single trigger() call are collapsed into one atomic
event). A tick event is one firing of the polling timer together with the
outcome of its fetchStatus call, at the given wall-clock time. -/
inductive Event where
  | start (now : Nat) (triggerOk : Bool) (triggerError : String) : Event
  | tick (now : Nat) (outcome : FetchOutcome) : Event
  | cancel : Event
deriving DecidableEq, Repr

/-- Modelled from the spec: the JobAlreadyRunning condition signaled when
start() is called on a tracker that is already running. -/
inductive Signal where
  | jobAlreadyRunning : Signal
deriving DecidableEq, Repr

/-- Modelled from the spec: tracker state — the Job record it exclusively
owns plus whether its (unique) polling timer is active. The timer flag is
also the cancelled flag checked by in-flight completion callbacks. -/
structure Tracker where
  job : Job
  timerActive : Bool
deriving DecidableEq, Repr

/-- Modelled from the spec: the client-side timeout test evaluated at each
poll tick — pollAttempts has reached maxAttempts (when set), or wall-clock
time elapsed since startedAt exceeds timeoutMs. -/
def timedOut (p : PollPolicy) (attempts startedAt now : Nat) : Bool :=
  (match p.maxAttempts with
   | some m => decide (m ≤ attempts)
   | none => false)
  || decide (p.timeoutMs < now - startedAt)

/-- Modelled from the spec: applying one poll tick. If the timer is not
active (cancelled or already terminal) the callback mutates nothing.
Otherwise pollAttempts is incremented, then: done with no error succeeds
and stores the result; done with an error, or a terminal fetch failure,
fails with that error; a transient error or done=false continues polling
unless the client-side timeout has been exceeded, which fails the job with
error "timeout". Every terminal transition clears the timer. -/
def applyFetch (p : PollPolicy) (s : Tracker) (now : Nat) (o : FetchOutcome) : Tracker :=
  if s.timerActive then
    let j := { s.job with pollAttempts := s.job.pollAttempts + 1 }
    match o with
    | .ok true r none =>
        { job := { j with status := .succeeded, result := r }, timerActive := false }
    | .ok true _ (some e) =>
        { job := { j with status := .failed, error := some e }, timerActive := false }
    | .terminalFailure e =>
        { job := { j with status := .failed, error := some e }, timerActive := false }
    | _ =>
        if timedOut p j.pollAttempts j.startedAt now then
          { job := { j with status := .failed, error := some "timeout" }, timerActive := false }
        else { s with job := j }
  else s

/-- Modelled from the spec: one step of the tracker. start() while already
running is rejected as a no-op and signals JobAlreadyRunning; otherwise it
resets the job (pollAttempts 0, fresh startedAt, defaults for result and
error) and either begins polling (trigger succeeded) or fails immediately
without ever starting the timer (trigger failed). cancel() clears the
timer unconditionally and leaves the job untouched. -/
def step (p : PollPolicy) (s : Tracker) (e : Event) : Tracker × Option Signal :=
  match e with
  | .start now triggerOk triggerError =>
      if s.job.status = .running then (s, some .jobAlreadyRunning)
      else if triggerOk then
        ({ job := { status := .running, startedAt := now, result := none,
                    error := none, pollAttempts := 0 }, timerActive := true }, none)
      else
        ({ job := { status := .failed, startedAt := now, result := none,
                    error := some triggerError, pollAttempts := 0 }, timerActive := false }, none)
  | .tick now o => (applyFetch p s now o, none)
  | .cancel => ({ s with timerActive := false }, none)

/-- Modelled from the spec: running a tracker over a sequence of events. -/
def run (p : PollPolicy) (s : Tracker) (es : List Event) : Tracker :=
  es.foldl (fun t e => (step p t e).1) s

/-- Modelled from the spec: a fresh tracker — idle, no timer, defaults. -/
def initTracker : Tracker :=
  { job := { status := .idle, startedAt := 0, result := none,
             error := none, pollAttempts := 0 },
    timerActive := false }

/-- Events that are not a start() call (poll ticks and cancellations). -/
def nonStart : Event → Bool
  | .start _ _ _ => false
  | _ => true

/-- A tracker state reachable from a fresh tracker by some event sequence. -/
def Reachable (p : PollPolicy) (s : Tracker) : Prop :=
  ∃ es : List Event, run p initTracker es = s

/-- The status transitions the spec's monotonic lifecycle allows within one
job instance: idle to running, running to succeeded, running to failed. -/
inductive StatusStep : Status → Status → Prop
  | idle_running : StatusStep .idle .running
  | running_succeeded : StatusStep .running .succeeded
  | running_failed : StatusStep .running .failed

end AsyncJobTracker

namespace AuditDashboard

/-- The Issue record of AuditDashboard.tsx. -/
structure Issue where
  id : Int
  issue_type : String
  severity : String
  category : String
  title : String
  description : String
  affected_pages : List String
  how_to_fix : String
  estimated_impact : Int
  effort_required : String
  implementation_status : String
  first_detected : String
  occurrences : Int
deriving DecidableEq, Repr

/-- The Recommendation record of AuditDashboard.tsx. -/
structure Recommendation where
  id : Int
  priority : Int
  category : String
  title : String
  description : String
  expected_impact : String
  implementation_complexity : String
  estimated_traffic_gain : Int
deriving DecidableEq, Repr

/-- The audit summary record nested in AuditData of AuditDashboard.tsx. -/
structure AuditSummary where
  id : Int
  health_score : Int
  previous_score : Int
  score_change : Int
  technical_score : Int
  content_score : Int
  performance_score : Int
  mobile_score : Int
  security_score : Int
  total_issues : Int
  critical_issues : Int
  errors : Int
  warnings : Int
  notices : Int
  new_issues : Int
  fixed_issues : Int
  audit_date : String
deriving DecidableEq, Repr

/-- The AuditData record of AuditDashboard.tsx. -/
structure AuditData where
  audit : AuditSummary
  issues : List Issue
  recommendations : List Recommendation
deriving DecidableEq, Repr

/-- The filter callback inside filteredIssues in AuditDashboard.tsx:
reject when a concrete category is selected and differs, reject when a
concrete severity is selected and differs, keep otherwise. -/
def issueFilter (selectedCategory selectedSeverity : String) (issue : Issue) : Bool :=
  if selectedCategory != "all" && issue.category != selectedCategory then false
  else if selectedSeverity != "all" && issue.severity != selectedSeverity then false
  else true

/-- filteredIssues from AuditDashboard.tsx: auditData?.issues.filter(...)
with the empty list when auditData is null. -/
def filteredIssues (auditData : Option AuditData)
    (selectedCategory selectedSeverity : String) : List Issue :=
  match auditData with
  | some d => d.issues.filter (issueFilter selectedCategory selectedSeverity)
  | none => []

/-- Spec-side restatement of the claimed filter condition: the issue's
category equals the selected one (or the selected category is "all") and
its severity equals the selected one (or the selected severity is "all"). -/
def issueMatchesFilters (selectedCategory selectedSeverity : String) (issue : Issue) : Bool :=
  (selectedCategory == "all" || issue.category == selectedCategory)
  && (selectedSeverity == "all" || issue.severity == selectedSeverity)

end AuditDashboard

namespace WebsiteManager

/-- getHealthColor from WebsiteManager.tsx. The argument is an optional
numeric score; the JavaScript guard (!score) is truthy exactly for an
absent score or a score equal to 0, and otherwise the 80/60/40 ladder
picks the class. -/
def getHealthColor (score : Option Int) : String :=
  match score with
  | none => "text-gray-400"
  | some s =>
      if s = 0 then "text-gray-400"
      else if s ≥ 80 then "text-green-400"
      else if s ≥ 60 then "text-yellow-400"
      else if s ≥ 40 then "text-orange-400"
      else "text-red-400"

end WebsiteManager

namespace AsyncJobTracker

theorem applyFetch_inactive (p : PollPolicy) (s : Tracker) (now : Nat) (o : FetchOutcome)
    (h : s.timerActive = false) : applyFetch p s now o = s := by
  simp [applyFetch, h]

theorem step_cancel_eq (p : PollPolicy) (s : Tracker) (h : s.timerActive = false) :
    (step p s .cancel).1 = s := by
  obtain ⟨j, t⟩ := s
  simp only [step]
  simp_all

theorem run_passive_fixed (p : PollPolicy) (s : Tracker) (es : List Event)
    (hs : s.timerActive = false) (hes : ∀ e ∈ es, nonStart e = true) :
    run p s es = s := by
  induction es with
  | nil => rfl
  | cons e rest ih =>
      have he : nonStart e = true := hes e (List.mem_cons_self _ _)
      have hrest : ∀ e ∈ rest, nonStart e = true := fun e h => hes e (List.mem_cons_of_mem _ h)
      cases e with
      | start now ok err => simp [nonStart] at he
      | tick now o =>
          show run p (step p s (.tick now o)).1 rest = s
          have : (step p s (.tick now o)).1 = s := by
            simp only [step]
            exact applyFetch_inactive p s now o hs
          rw [this]
          exact ih hrest
      | cancel =>
          show run p (step p s .cancel).1 rest = s
          rw [step_cancel_eq p s hs]
          exact ih hrest

end AsyncJobTracker

namespace AsyncJobTracker

/-- Claim C3: a start() call issued while the tracker is already running is
rejected as a complete no-op (the whole tracker state, including the
original job's pollAttempts and startedAt, is unchanged and no second job
is created) and the JobAlreadyRunning condition is signaled to the
caller. -/
theorem start_while_running_rejected (p : PollPolicy) (s : Tracker)
    (now : Nat) (ok : Bool) (err : String) (h : s.job.status = .running) :
    step p s (.start now ok err) = (s, some Signal.jobAlreadyRunning) := by
  simp [step, h]

theorem start_while_running_rejected_witness :
    step ⟨5000, 30000, none⟩
      ⟨⟨.running, 100, none, none, 2⟩, true⟩ (.start 7 true "x") =
      (⟨⟨.running, 100, none, none, 2⟩, true⟩, some Signal.jobAlreadyRunning) :=
  start_while_running_rejected ⟨5000, 30000, none⟩
    ⟨⟨.running, 100, none, none, 2⟩, true⟩ 7 true "x" rfl

/-- Claim C5: cancel() never changes the job record (so the status stays
as-is), cancelling twice equals cancelling once (idempotent, a no-op when
no timer is active), and an in-flight status fetch that resolves after
cancellation leaves the tracker exactly as it was at the moment of
cancellation (status and result included). -/
theorem cancel_idempotent_and_frame (p : PollPolicy) (s : Tracker)
    (now : Nat) (o : FetchOutcome) :
    (step p s .cancel).1.job = s.job
    ∧ (step p (step p s .cancel).1 .cancel).1 = (step p s .cancel).1
    ∧ (step p (step p s .cancel).1 (.tick now o)).1 = (step p s .cancel).1 := by
  refine ⟨rfl, rfl, ?_⟩
  simp only [step]
  exact applyFetch_inactive p _ now o rfl

/-- Claim C4: when the trigger call fails, the job transitions directly to
failed with the trigger's error recorded, no poll timer is created, and no
status fetch is ever issued: every subsequent sequence of poll ticks and
cancellations leaves the tracker unchanged, with pollAttempts still 0. -/
theorem trigger_failure_skips_polling (p : PollPolicy) (s : Tracker)
    (now : Nat) (err : String) (es : List Event)
    (h : s.job.status ≠ .running) (hes : ∀ e ∈ es, nonStart e = true) :
    (step p s (.start now false err)).1.job.status = .failed
    ∧ (step p s (.start now false err)).1.job.error = some err
    ∧ (step p s (.start now false err)).1.timerActive = false
    ∧ run p (step p s (.start now false err)).1 es = (step p s (.start now false err)).1
    ∧ (run p (step p s (.start now false err)).1 es).job.pollAttempts = 0 := by
  have hstep : (step p s (.start now false err)).1 =
      ⟨⟨.failed, now, none, some err, 0⟩, false⟩ := by
    simp [step, h]
  rw [hstep]
  have hrun : run p (⟨⟨.failed, now, none, some err, 0⟩, false⟩ : Tracker) es =
      ⟨⟨.failed, now, none, some err, 0⟩, false⟩ :=
    run_passive_fixed p _ es rfl hes
  exact ⟨rfl, rfl, rfl, hrun, by rw [hrun]⟩

theorem trigger_failure_skips_polling_witness :
    (step ⟨5000, 30000, none⟩ initTracker (.start 3 false "boom")).1.job.status = .failed
    ∧ (step ⟨5000, 30000, none⟩ initTracker (.start 3 false "boom")).1.job.error = some "boom"
    ∧ (step ⟨5000, 30000, none⟩ initTracker (.start 3 false "boom")).1.timerActive = false
    ∧ run ⟨5000, 30000, none⟩ (step ⟨5000, 30000, none⟩ initTracker (.start 3 false "boom")).1
        [.tick 8 (.ok false none none), .cancel]
      = (step ⟨5000, 30000, none⟩ initTracker (.start 3 false "boom")).1
    ∧ (run ⟨5000, 30000, none⟩ (step ⟨5000, 30000, none⟩ initTracker (.start 3 false "boom")).1
        [.tick 8 (.ok false none none), .cancel]).job.pollAttempts = 0 :=
  trigger_failure_skips_polling ⟨5000, 30000, none⟩ initTracker 3 "boom"
    [.tick 8 (.ok false none none), .cancel] (by decide) (by decide)

/-- Claim C2: while the timer is active and the fetch keeps answering
done=false, as soon as a tick finds elapsed wall-clock time past
policy.timeoutMs (or pollAttempts reaching policy.maxAttempts when set),
the job becomes failed with error "timeout", the timer is cancelled, and
no further polls are issued: every later sequence of ticks and
cancellations leaves the tracker unchanged. -/
theorem client_timeout_fails_job (p : PollPolicy) (s : Tracker)
    (now : Nat) (es : List Event) (hs : s.timerActive = true)
    (hto : p.timeoutMs < now - s.job.startedAt
           ∨ ∃ m, p.maxAttempts = some m ∧ m ≤ s.job.pollAttempts + 1)
    (hes : ∀ e ∈ es, nonStart e = true) :
    (step p s (.tick now (.ok false none none))).1.job.status = .failed
    ∧ (step p s (.tick now (.ok false none none))).1.job.error = some "timeout"
    ∧ (step p s (.tick now (.ok false none none))).1.timerActive = false
    ∧ run p (step p s (.tick now (.ok false none none))).1 es
        = (step p s (.tick now (.ok false none none))).1 := by
  have hT : timedOut p (s.job.pollAttempts + 1) s.job.startedAt now = true := by
    rcases hto with h | ⟨m, hm, hle⟩
    · simp [timedOut, h]
    · simp [timedOut, hm, hle]
  have hstep : (step p s (.tick now (.ok false none none))).1 =
      ⟨⟨.failed, s.job.startedAt, s.job.result, some "timeout",
        s.job.pollAttempts + 1⟩, false⟩ := by
    simp [step, applyFetch, hs, hT]
  rw [hstep]
  exact ⟨rfl, rfl, rfl, run_passive_fixed p _ es rfl hes⟩

theorem client_timeout_fails_job_witness :
    (step ⟨100, 1000, none⟩ ⟨⟨.running, 0, none, none, 4⟩, true⟩
        (.tick 1500 (.ok false none none))).1.job.status = .failed
    ∧ (step ⟨100, 1000, none⟩ ⟨⟨.running, 0, none, none, 4⟩, true⟩
        (.tick 1500 (.ok false none none))).1.job.error = some "timeout"
    ∧ (step ⟨100, 1000, none⟩ ⟨⟨.running, 0, none, none, 4⟩, true⟩
        (.tick 1500 (.ok false none none))).1.timerActive = false
    ∧ run ⟨100, 1000, none⟩
        (step ⟨100, 1000, none⟩ ⟨⟨.running, 0, none, none, 4⟩, true⟩
          (.tick 1500 (.ok false none none))).1
        [.tick 1600 (.ok false none none), .cancel]
      = (step ⟨100, 1000, none⟩ ⟨⟨.running, 0, none, none, 4⟩, true⟩
          (.tick 1500 (.ok false none none))).1 :=
  client_timeout_fails_job ⟨100, 1000, none⟩ ⟨⟨.running, 0, none, none, 4⟩, true⟩
    1500 [.tick 1600 (.ok false none none), .cancel] rfl (Or.inl (by decide)) (by decide)

end AsyncJobTracker

namespace AuditDashboard

theorem issueFilter_eq_matches (cat sev : String) (i : Issue) :
    issueFilter cat sev i = issueMatchesFilters cat sev i := by
  simp only [issueFilter, issueMatchesFilters]
  by_cases h1 : cat = "all" <;> by_cases h2 : sev = "all" <;>
    by_cases h3 : i.category = cat <;> by_cases h4 : i.severity = sev <;>
    simp [h1, h2, h3, h4]

/-- Claim C9: filteredIssues keeps exactly the issues whose category
matches the selected category (or "all" is selected) and whose severity
matches the selected severity (or "all" is selected), in the original
order; with both selections "all" it is the full issue list, its length
never exceeds the total issue count, and it is empty when auditData is
absent. -/
theorem filteredIssues_spec (d : AuditData) (cat sev : String) :
    filteredIssues none cat sev = []
    ∧ filteredIssues (some d) cat sev = d.issues.filter (issueMatchesFilters cat sev)
    ∧ filteredIssues (some d) "all" "all" = d.issues
    ∧ (filteredIssues (some d) cat sev).length ≤ d.issues.length := by
  refine ⟨rfl, ?_, ?_, ?_⟩
  · simp only [filteredIssues]
    exact List.filter_congr fun i _ => issueFilter_eq_matches cat sev i
  · simp [filteredIssues, issueFilter]
  · simp only [filteredIssues]
    exact List.length_filter_le _ _

end AuditDashboard

namespace WebsiteManager

/-- Claim C10: getHealthColor renders an absent score or a score of
exactly 0 with the neutral gray class, and any positive score with the
single class picked by the partition: at least 80 green, 60 to 79 yellow,
40 to 59 orange, below 40 red. -/
theorem getHealthColor_spec (s : Int) (h : 0 < s) :
    getHealthColor none = "text-gray-400"
    ∧ getHealthColor (some 0) = "text-gray-400"
    ∧ (80 ≤ s → getHealthColor (some s) = "text-green-400")
    ∧ (60 ≤ s → s < 80 → getHealthColor (some s) = "text-yellow-400")
    ∧ (40 ≤ s → s < 60 → getHealthColor (some s) = "text-orange-400")
    ∧ (s < 40 → getHealthColor (some s) = "text-red-400") := by
  refine ⟨rfl, rfl, ?_, ?_, ?_, ?_⟩ <;> intros <;>
    simp only [getHealthColor] <;> split_ifs <;> first | rfl | omega

theorem getHealthColor_spec_witness :
    getHealthColor none = "text-gray-400"
    ∧ getHealthColor (some 0) = "text-gray-400"
    ∧ (80 ≤ (85 : Int) → getHealthColor (some 85) = "text-green-400")
    ∧ (60 ≤ (85 : Int) → (85 : Int) < 80 → getHealthColor (some 85) = "text-yellow-400")
    ∧ (40 ≤ (85 : Int) → (85 : Int) < 60 → getHealthColor (some 85) = "text-orange-400")
    ∧ ((85 : Int) < 40 → getHealthColor (some 85) = "text-red-400") :=
  getHealthColor_spec 85 (by decide)

end WebsiteManager

namespace AsyncJobTracker

theorem run_notdone_ticks (p : PollPolicy) (s : Tracker) (ts : List Nat)
    (hact : s.timerActive = true) (hmax : p.maxAttempts = none)
    (hts : ∀ t ∈ ts, t - s.job.startedAt ≤ p.timeoutMs) :
    run p s (ts.map (fun t => Event.tick t (.ok false none none))) =
      ⟨{ s.job with pollAttempts := s.job.pollAttempts + ts.length }, true⟩ := by
  induction ts generalizing s with
  | nil =>
      obtain ⟨⟨st, sa, r, er, pa⟩, ta⟩ := s
      simp_all [run]
  | cons t rest ih =>
      have h1 : t - s.job.startedAt ≤ p.timeoutMs := hts t (List.mem_cons_self _ _)
      have hnotto : timedOut p (s.job.pollAttempts + 1) s.job.startedAt t = false := by
        simp [timedOut, hmax, Nat.not_lt.2 h1]
      have hstep : (step p s (.tick t (.ok false none none))).1 =
          ⟨{ s.job with pollAttempts := s.job.pollAttempts + 1 }, true⟩ := by
        simp [step, applyFetch, hact, hnotto]
      simp only [List.map_cons]
      show run p (step p s (.tick t (.ok false none none))).1
        (rest.map (fun t => Event.tick t (.ok false none none))) = _
      rw [hstep]
      rw [ih ⟨{ s.job with pollAttempts := s.job.pollAttempts + 1 }, true⟩ rfl
        (fun t' ht' => hts t' (List.mem_cons_of_mem _ ht'))]
      have harith : s.job.pollAttempts + 1 + rest.length
          = s.job.pollAttempts + (rest.length + 1) := by omega
      simp [harith]

/-- Claim C1: when the status fetch answers done=false on N consecutive
ticks and then done=true with a result and no error, the job is still
running with N poll attempts after those N ticks, and the (N+1)-st tick
transitions it to succeeded with the stored result equal to the final
fetched payload and the polling timer cancelled at that transition. -/
theorem poll_until_done_succeeds (p : PollPolicy) (t0 : Nat) (ts : List Nat)
    (tN : Nat) (r : Payload) (hmax : p.maxAttempts = none)
    (hts : ∀ t ∈ ts, t - t0 ≤ p.timeoutMs) :
    run p initTracker
        (.start t0 true "" :: ts.map (fun t => Event.tick t (.ok false none none)))
      = ⟨⟨.running, t0, none, none, ts.length⟩, true⟩
    ∧ (step p (⟨⟨.running, t0, none, none, ts.length⟩, true⟩ : Tracker)
        (.tick tN (.ok true (some r) none))).1
      = ⟨⟨.succeeded, t0, some r, none, ts.length + 1⟩, false⟩ := by
  constructor
  · have h0 : (step p initTracker (.start t0 true "")).1 =
        ⟨⟨.running, t0, none, none, 0⟩, true⟩ := by
      simp [step, initTracker]
    show run p (step p initTracker (.start t0 true "")).1
      (ts.map (fun t => Event.tick t (.ok false none none))) = _
    rw [h0]
    rw [run_notdone_ticks p ⟨⟨.running, t0, none, none, 0⟩, true⟩ ts rfl hmax hts]
    simp
  · simp [step, applyFetch]

theorem poll_until_done_succeeds_witness :
    run ⟨5000, 30000, none⟩ initTracker
        (.start 0 true "" :: [5000, 10000].map (fun t => Event.tick t (.ok false none none)))
      = ⟨⟨.running, 0, none, none, ([5000, 10000] : List Nat).length⟩, true⟩
    ∧ (step ⟨5000, 30000, none⟩
        (⟨⟨.running, 0, none, none, ([5000, 10000] : List Nat).length⟩, true⟩ : Tracker)
        (.tick 15000 (.ok true (some [("health_score", "90")]) none))).1
      = ⟨⟨.succeeded, 0, some [("health_score", "90")], none,
          ([5000, 10000] : List Nat).length + 1⟩, false⟩ :=
  poll_until_done_succeeds ⟨5000, 30000, none⟩ 0 [5000, 10000] 15000
    [("health_score", "90")] rfl (by decide)

end AsyncJobTracker

namespace AsyncJobTracker

/-- Claim C6: a transient fetch failure on a tick within the time budget
never changes the job's status and never stops the timer; concretely, with
transient failures on the first two ticks and a successful done=true fetch
on the third, the job ends succeeded with the fetched result and
pollAttempts reaches 3. -/
theorem transient_errors_do_not_abort (p : PollPolicy) (s : Tracker)
    (t0 t1 t2 t3 now : Nat) (r : Payload)
    (hmax : p.maxAttempts = none)
    (h1 : t1 - t0 ≤ p.timeoutMs) (h2 : t2 - t0 ≤ p.timeoutMs)
    (hnow : now - s.job.startedAt ≤ p.timeoutMs) :
    ((step p s (.tick now .transientError)).1.job.status = s.job.status
     ∧ (step p s (.tick now .transientError)).1.timerActive = s.timerActive)
    ∧ run p initTracker [.start t0 true "", .tick t1 .transientError,
        .tick t2 .transientError, .tick t3 (.ok true (some r) none)]
      = ⟨⟨.succeeded, t0, some r, none, 3⟩, false⟩
    ∧ 3 ≤ (run p initTracker [.start t0 true "", .tick t1 .transientError,
        .tick t2 .transientError, .tick t3 (.ok true (some r) none)]).job.pollAttempts := by
  have hrun : run p initTracker [.start t0 true "", .tick t1 .transientError,
      .tick t2 .transientError, .tick t3 (.ok true (some r) none)]
      = ⟨⟨.succeeded, t0, some r, none, 3⟩, false⟩ := by
    have e1 : timedOut p 1 t0 t1 = false := by
      simp [timedOut, hmax, Nat.not_lt.2 h1]
    have e2 : timedOut p 2 t0 t2 = false := by
      simp [timedOut, hmax, Nat.not_lt.2 h2]
    have s0 : (step p initTracker (.start t0 true "")).1 =
        ⟨⟨.running, t0, none, none, 0⟩, true⟩ := by
      simp [step, initTracker]
    have s1 : (step p (⟨⟨.running, t0, none, none, 0⟩, true⟩ : Tracker)
        (.tick t1 .transientError)).1 = ⟨⟨.running, t0, none, none, 1⟩, true⟩ := by
      simp [step, applyFetch, e1]
    have s2 : (step p (⟨⟨.running, t0, none, none, 1⟩, true⟩ : Tracker)
        (.tick t2 .transientError)).1 = ⟨⟨.running, t0, none, none, 2⟩, true⟩ := by
      simp [step, applyFetch, e2]
    have s3 : (step p (⟨⟨.running, t0, none, none, 2⟩, true⟩ : Tracker)
        (.tick t3 (.ok true (some r) none))).1
        = ⟨⟨.succeeded, t0, some r, none, 3⟩, false⟩ := by
      simp [step, applyFetch]
    show (step p (step p (step p (step p initTracker (.start t0 true "")).1
        (.tick t1 .transientError)).1 (.tick t2 .transientError)).1
        (.tick t3 (.ok true (some r) none))).1 = _
    rw [s0, s1, s2, s3]
  refine ⟨?_, hrun, by rw [hrun]⟩
  have hnotto : timedOut p (s.job.pollAttempts + 1) s.job.startedAt now = false := by
    simp [timedOut, hmax, Nat.not_lt.2 hnow]
  by_cases hact : s.timerActive
  · constructor <;> simp [step, applyFetch, hact, hnotto]
  · have hact' : s.timerActive = false := by simpa using hact
    have hfix : (step p s (.tick now .transientError)).1 = s := by
      simp only [step]
      exact applyFetch_inactive p s now _ hact'
    rw [hfix]
    exact ⟨rfl, rfl⟩

theorem transient_errors_do_not_abort_witness :
    ((step ⟨5000, 30000, none⟩ (⟨⟨.running, 0, none, none, 0⟩, true⟩ : Tracker)
        (.tick 5000 .transientError)).1.job.status
        = (⟨⟨.running, 0, none, none, 0⟩, true⟩ : Tracker).job.status
     ∧ (step ⟨5000, 30000, none⟩ (⟨⟨.running, 0, none, none, 0⟩, true⟩ : Tracker)
        (.tick 5000 .transientError)).1.timerActive
        = (⟨⟨.running, 0, none, none, 0⟩, true⟩ : Tracker).timerActive)
    ∧ run ⟨5000, 30000, none⟩ initTracker [.start 0 true "", .tick 5000 .transientError,
        .tick 10000 .transientError, .tick 15000 (.ok true (some [("ok", "1")]) none)]
      = ⟨⟨.succeeded, 0, some [("ok", "1")], none, 3⟩, false⟩
    ∧ 3 ≤ (run ⟨5000, 30000, none⟩ initTracker [.start 0 true "", .tick 5000 .transientError,
        .tick 10000 .transientError, .tick 15000 (.ok true (some [("ok", "1")]) none)]).job.pollAttempts :=
  transient_errors_do_not_abort ⟨5000, 30000, none⟩
    (⟨⟨.running, 0, none, none, 0⟩, true⟩ : Tracker) 0 5000 10000 15000 5000
    [("ok", "1")] rfl (by decide) (by decide) (by decide)

end AsyncJobTracker

namespace AsyncJobTracker

theorem inv_step (p : PollPolicy) (s : Tracker) (e : Event)
    (h : s.timerActive = true → s.job.status = .running) :
    (step p s e).1.timerActive = true → (step p s e).1.job.status = .running := by
  cases e with
  | start now ok err =>
      by_cases hrun : s.job.status = .running
      · intro _
        simp [step, hrun]
      · cases ok <;> simp [step, hrun]
  | tick now o =>
      by_cases hact : s.timerActive
      · have hstat := h hact
        cases o with
        | transientError =>
            by_cases hto : timedOut p (s.job.pollAttempts + 1) s.job.startedAt now <;>
              simp [step, applyFetch, hact, hto, hstat]
        | terminalFailure e => simp [step, applyFetch, hact]
        | ok d r er =>
            cases d with
            | true => cases er <;> simp [step, applyFetch, hact]
            | false =>
                by_cases hto : timedOut p (s.job.pollAttempts + 1) s.job.startedAt now <;>
                  simp [step, applyFetch, hact, hto, hstat]
      · have hact' : s.timerActive = false := by simpa using hact
        simp only [step]
        rw [applyFetch_inactive p s now o hact']
        exact h
  | cancel => simp [step]

theorem run_inv (p : PollPolicy) (s : Tracker) (es : List Event)
    (h : s.timerActive = true → s.job.status = .running) :
    (run p s es).timerActive = true → (run p s es).job.status = .running := by
  induction es generalizing s with
  | nil => exact h
  | cons e rest ih => exact ih (step p s e).1 (inv_step p s e h)

theorem reachable_timer_running (p : PollPolicy) (s : Tracker) (h : Reachable p s) :
    s.timerActive = true → s.job.status = .running := by
  obtain ⟨es, rfl⟩ := h
  exact run_inv p initTracker es (by intro hx; simp [initTracker] at hx)

theorem applyFetch_status (p : PollPolicy) (s : Tracker) (now : Nat) (o : FetchOutcome) :
    (applyFetch p s now o).job.status = s.job.status
    ∨ (applyFetch p s now o).job.status = .succeeded
    ∨ (applyFetch p s now o).job.status = .failed := by
  by_cases hact : s.timerActive
  · cases o with
    | transientError =>
        by_cases hto : timedOut p (s.job.pollAttempts + 1) s.job.startedAt now <;>
          simp [applyFetch, hact, hto]
    | terminalFailure e => simp [applyFetch, hact]
    | ok d r er =>
        cases d with
        | true => cases er <;> simp [applyFetch, hact]
        | false =>
            by_cases hto : timedOut p (s.job.pollAttempts + 1) s.job.startedAt now <;>
              simp [applyFetch, hact, hto]
  · rw [applyFetch_inactive p s now o (by simpa using hact)]
    exact Or.inl rfl

/-- Claim C7: in every reachable tracker state the single timer flag is
active only while the job is running (so there is never a timer left over
in a terminal or idle state, and the sequential event model admits at most
one timer and one poll in flight); cancel() clears the timer handle, and
every step that lands in a terminal status (succeeded or failed) leaves
the timer cleared. -/
theorem single_timer_and_cleanup (p : PollPolicy) (s : Tracker) (e : Event)
    (h : Reachable p s) :
    (s.timerActive = true → s.job.status = .running)
    ∧ (step p s .cancel).1.timerActive = false
    ∧ (((step p s e).1.job.status = .succeeded ∨ (step p s e).1.job.status = .failed)
        → (step p s e).1.timerActive = false) := by
  have hinv := reachable_timer_running p s h
  refine ⟨hinv, rfl, ?_⟩
  intro hterm
  by_cases hact2 : (step p s e).1.timerActive
  · have hrunning := inv_step p s e hinv hact2
    rcases hterm with ht | ht <;> rw [hrunning] at ht <;> simp at ht
  · simpa using hact2

theorem single_timer_and_cleanup_witness :
    (initTracker.timerActive = true → initTracker.job.status = .running)
    ∧ (step ⟨5000, 30000, none⟩ initTracker .cancel).1.timerActive = false
    ∧ (((step ⟨5000, 30000, none⟩ initTracker .cancel).1.job.status = .succeeded
        ∨ (step ⟨5000, 30000, none⟩ initTracker .cancel).1.job.status = .failed)
        → (step ⟨5000, 30000, none⟩ initTracker .cancel).1.timerActive = false) :=
  single_timer_and_cleanup ⟨5000, 30000, none⟩ initTracker .cancel ⟨[], rfl⟩

end AsyncJobTracker

namespace AsyncJobTracker

/-- Claim C8: within one job instance status moves only along the
monotonic lifecycle idle to running to succeeded-or-failed: every
non-start event moves the status along that order and leaves the whole
job untouched when the status is already terminal, while a start() call on
a non-running tracker begins a logically new job with pollAttempts and
result reset to defaults and startedAt updated to the call time. -/
theorem monotonic_status_lifecycle (p : PollPolicy) (s : Tracker) (e : Event)
    (h : Reachable p s) :
    (nonStart e = true →
       Relation.ReflTransGen StatusStep s.job.status (step p s e).1.job.status
       ∧ ((s.job.status = .succeeded ∨ s.job.status = .failed)
            → (step p s e).1.job = s.job))
    ∧ (∀ now ok err, s.job.status ≠ .running →
         (step p s (.start now ok err)).1.job.pollAttempts = 0
         ∧ (step p s (.start now ok err)).1.job.result = none
         ∧ (step p s (.start now ok err)).1.job.startedAt = now) := by
  have hinv := reachable_timer_running p s h
  constructor
  · intro hns
    cases e with
    | start now ok err => simp [nonStart] at hns
    | cancel => exact ⟨Relation.ReflTransGen.refl, fun _ => rfl⟩
    | tick now o =>
        by_cases hact : s.timerActive
        · have hstat := hinv hact
          constructor
          · have hcases := applyFetch_status p s now o
            have hred : (step p s (.tick now o)).1 = applyFetch p s now o := rfl
            rw [hred]
            rcases hcases with h3 | h3 | h3
            · rw [h3]
            · rw [h3, hstat]
              exact Relation.ReflTransGen.single StatusStep.running_succeeded
            · rw [h3, hstat]
              exact Relation.ReflTransGen.single StatusStep.running_failed
          · intro hterm
            rcases hterm with ht | ht <;> rw [hstat] at ht <;> simp at ht
        · have hact' : s.timerActive = false := by simpa using hact
          have hfix : (step p s (.tick now o)).1 = s := by
            simp only [step]
            exact applyFetch_inactive p s now o hact'
          rw [hfix]
          exact ⟨Relation.ReflTransGen.refl, fun _ => rfl⟩
  · intro now ok err hns
    cases ok <;> simp [step, hns]

theorem monotonic_status_lifecycle_witness :
    (nonStart .cancel = true →
       Relation.ReflTransGen StatusStep initTracker.job.status
         (step ⟨5000, 30000, none⟩ initTracker .cancel).1.job.status
       ∧ ((initTracker.job.status = .succeeded ∨ initTracker.job.status = .failed)
            → (step ⟨5000, 30000, none⟩ initTracker .cancel).1.job = initTracker.job))
    ∧ (∀ now ok err, initTracker.job.status ≠ .running →
         (step ⟨5000, 30000, none⟩ initTracker (.start now ok err)).1.job.pollAttempts = 0
         ∧ (step ⟨5000, 30000, none⟩ initTracker (.start now ok err)).1.job.result = none
         ∧ (step ⟨5000, 30000, none⟩ initTracker (.start now ok err)).1.job.startedAt = now) :=
  monotonic_status_lifecycle ⟨5000, 30000, none⟩ initTracker .cancel ⟨[], rfl⟩

end AsyncJobTracker
